import Mathlib

/-!
Shallow embedding of the two source files of the `grammers` repository that
the claims concern:

* `lib/grammers-client/src/types/chat/group.rs` — the `Group` wrapper around
  the raw `tl::enums::Chat` sum type, with `from_raw`, `id`, `pack` and
  `is_megagroup`.
* `lib/grammers-client/src/types/input_message.rs` — the `InputMessage`
  builder with its flag, scheduling, TTL, MIME and media-attachment methods.

Modelling conventions:

* Rust `panic!` in `Group::from_raw` is modelled by returning `Option Group`,
  with `none` standing for the fatal contract violation.
* Machine integers (`i64`, `i32`) are modelled as `Int`; the one place the
  source narrows (`as_secs() as i32` in `schedule_date`) is made explicit via
  `i32_of_u64`, the low-32-bit signed reinterpretation of a `u64`.
* The raw TL types (`tl::enums::Chat`, `tl::enums::InputMedia`, …) live in an
  external crate; they are reproduced here with exactly the fields the
  embedded client code reads or writes (id, access_hash, broadcast, the
  `InputMedia` payload fields, …), plus a catch-all constructor where the
  client code treats remaining variants uniformly.
* The external `mime_guess::from_path(...).first()` lookup (a read-only table)
  is threaded through as an explicit oracle `guess : String → Option String`
  returning the essence string of the guessed MIME type, if any.
* Rust methods whose name collides with a field projection of the same
  structure (Rust allows this, Lean does not) carry a trailing apostrophe:
  e.g. the setter `InputMessage.silent'` next to the field
  `InputMessage.silent`.
-/

set_option linter.dupNamespace false

namespace Grammers

/-- Model of `grammers_session::PackedType`. -/
inductive PackedType
  | User
  | Bot
  | Chat
  | Megagroup
  | Broadcast
  | Gigagroup
deriving DecidableEq

/-- Model of `grammers_session::PackedChat`: the compact packed key
`{ty, id, access_hash}`. -/
structure PackedChat where
  ty : PackedType
  id : Int
  access_hash : Option Int
deriving DecidableEq

/-- Payload of `tl::enums::Chat::Empty` — only the `id` field is read by the
embedded code. -/
structure ChatEmpty where
  id : Int
deriving DecidableEq

/-- Payload of `tl::enums::Chat::Chat` (a plain small group chat); fields the
client reads: `id`, `title`. -/
structure ChatChat where
  id : Int
  title : String
deriving DecidableEq

/-- Payload of `tl::enums::Chat::Forbidden`. -/
structure ChatForbiddenData where
  id : Int
  title : String
deriving DecidableEq

/-- Payload of `tl::enums::Chat::Channel`; the `access_hash` field is optional
in the TL schema (`flags.13?long`), which is visible in the source where
`pack` forwards `chat.access_hash` unwrapped. -/
structure ChannelData where
  id : Int
  access_hash : Option Int
  title : String
  broadcast : Bool
  megagroup : Bool
deriving DecidableEq

/-- Payload of `tl::enums::Chat::ChannelForbidden`; here `access_hash` is a
mandatory `long`, which is visible in the source where `pack` wraps it in
`Some`. -/
structure ChannelForbiddenData where
  id : Int
  access_hash : Int
  title : String
  broadcast : Bool
  megagroup : Bool
deriving DecidableEq

/-- Model of the raw sum type `tl::enums::Chat` with its five variants. -/
inductive Chat
  | Empty (c : ChatEmpty)
  | Chat (c : ChatChat)
  | Forbidden (c : ChatForbiddenData)
  | Channel (c : ChannelData)
  | ChannelForbidden (c : ChannelForbiddenData)
deriving DecidableEq

/-- Model of `grammers_client::types::chat::Group`: a wrapper holding one raw
chat variant. -/
structure Group where
  raw : Chat
deriving DecidableEq

/-- Embedding of `Group::from_raw`.  The Rust function panics (with
"tried to create megagroup channel from broadcast") when handed a
`Channel`/`ChannelForbidden` whose `broadcast` flag is set; the panic is
modelled as `none`.  All other inputs wrap the variant unchanged. -/
def Group.from_raw (chat : Chat) : Option Group :=
  match chat with
  | Chat.Empty _ => some { raw := chat }
  | Chat.Chat _ => some { raw := chat }
  | Chat.Forbidden _ => some { raw := chat }
  | Chat.Channel channel =>
    if channel.broadcast then none else some { raw := chat }
  | Chat.ChannelForbidden channel =>
    if channel.broadcast then none else some { raw := chat }

/-- Embedding of `Group::id`: extract the `id` field of whichever variant is
wrapped. -/
def Group.id (g : Group) : Int :=
  match g.raw with
  | Chat.Empty chat => chat.id
  | Chat.Chat chat => chat.id
  | Chat.Forbidden chat => chat.id
  | Chat.Channel chat => chat.id
  | Chat.ChannelForbidden chat => chat.id

/-- Embedding of `Group::is_megagroup`. -/
def Group.is_megagroup (g : Group) : Bool :=
  match g.raw with
  | Chat.Empty _ => false
  | Chat.Chat _ => false
  | Chat.Forbidden _ => false
  | Chat.Channel _ => true
  | Chat.ChannelForbidden _ => true

/-- Embedding of `Group::pack`. -/
def Group.pack (g : Group) : PackedChat :=
  let p : Int × Option Int :=
    match g.raw with
    | Chat.Empty chat => (chat.id, none)
    | Chat.Chat chat => (chat.id, none)
    | Chat.Forbidden chat => (chat.id, none)
    | Chat.Channel chat => (chat.id, chat.access_hash)
    | Chat.ChannelForbidden chat => (chat.id, some chat.access_hash)
  { ty := if g.is_megagroup then PackedType.Megagroup else PackedType.Chat
    id := p.1
    access_hash := p.2 }

/-- Spec-side predicate: the wrapped variant carries a set broadcast flag.
Used only to state the `from_raw` contract. -/
def Chat.broadcast_flag : Grammers.Chat → Bool
  | Chat.Channel c => c.broadcast
  | Chat.ChannelForbidden c => c.broadcast
  | _ => false

/-- Spec-side predicate: the variants for which `pack` can actually emit an
access hash — `ChannelForbidden` always (mandatory field), `Channel` exactly
when its own optional `access_hash` field is set. -/
def Chat.expects_access_hash : Grammers.Chat → Bool
  | Chat.Channel c => c.access_hash.isSome
  | Chat.ChannelForbidden _ => true
  | _ => false

/-- Model of the file-identity part of `tl::enums::InputFile` that the client
reads: an upload id and the original file name. -/
structure InputFile where
  id : Int
  name : String
deriving DecidableEq

/-- Model of the external `Uploaded` handle (`crate::types::Uploaded`): it
wraps a raw input file and exposes the file's name. -/
structure Uploaded where
  raw : InputFile
deriving DecidableEq

/-- Embedding of `Uploaded::name`: the name recorded in the raw input file. -/
def Uploaded.name (u : Uploaded) : String :=
  u.raw.name

/-- Model of `tl::enums::DocumentAttribute`: the `Filename` variant is the one
the embedded code constructs; `Audio` appears in the `attribute` doc example;
remaining variants are collapsed into `Other` since the client code never
inspects them. -/
inductive DocumentAttribute
  | Filename (file_name : String)
  | Audio (duration : Int) (title : Option String) (performer : Option String)
  | Other (tag : Nat)
deriving DecidableEq

/-- Payload of `tl::types::InputMediaUploadedPhoto`. -/
structure InputMediaUploadedPhoto where
  spoiler : Bool
  file : InputFile
  stickers : Option (List Int)
  ttl_seconds : Option Int
deriving DecidableEq

/-- Payload of `tl::types::InputMediaPhotoExternal`. -/
structure InputMediaPhotoExternal where
  spoiler : Bool
  url : String
  ttl_seconds : Option Int
deriving DecidableEq

/-- Payload of `tl::types::InputMediaUploadedDocument`. -/
structure InputMediaUploadedDocument where
  nosound_video : Bool
  force_file : Bool
  spoiler : Bool
  file : InputFile
  thumb : Option InputFile
  mime_type : String
  attributes : List DocumentAttribute
  stickers : Option (List Int)
  ttl_seconds : Option Int
  video_cover : Option Int
  video_timestamp : Option Int
deriving DecidableEq

/-- Payload of `tl::types::InputMediaDocumentExternal`. -/
structure InputMediaDocumentExternal where
  spoiler : Bool
  url : String
  ttl_seconds : Option Int
  video_cover : Option Int
  video_timestamp : Option Int
deriving DecidableEq

/-- Model of the raw sum type `tl::enums::InputMedia`: the four variants the
builder constructs, plus a catch-all for the remaining variants a caller can
inject through the raw `media(...)` passthrough. -/
inductive InputMedia
  | UploadedPhoto (m : InputMediaUploadedPhoto)
  | PhotoExternal (m : InputMediaPhotoExternal)
  | UploadedDocument (m : InputMediaUploadedDocument)
  | DocumentExternal (m : InputMediaDocumentExternal)
  | Other (tag : Nat)
deriving DecidableEq

/-- Model of a formatting entity (`tl::enums::MessageEntity`); the builder
stores these without inspecting them. -/
structure MessageEntity where
  offset : Int
  length : Int
  tag : Nat
deriving DecidableEq

/-- Model of a raw reply markup descriptor (`tl::enums::ReplyMarkup`); stored
without inspection. -/
structure ReplyMarkupRaw where
  tag : Nat
deriving DecidableEq

/-- Model of `web_time::SystemTime` at the granularity the builder observes:
a signed count of whole seconds relative to `UNIX_EPOCH` (negative means
before the epoch, where `duration_since(UNIX_EPOCH)` returns `Err`). -/
structure SystemTime where
  secs : Int
deriving DecidableEq

/-- Low 32 bits of a `u64`, reinterpreted as a signed 32-bit value: the
meaning of Rust's `as_secs() as i32` narrowing cast. -/
def i32_of_u64 (n : Nat) : Int :=
  let r := n % 4294967296
  if r < 2147483648 then (r : Int) else (r : Int) - 4294967296

/-- The sentinel `SCHEDULE_ONCE_ONLINE: i32 = 0x7ffffffe` from the source. -/
def SCHEDULE_ONCE_ONLINE : Int := 0x7ffffffe

/-- Embedding of the `InputMessage` struct.  In the source it is
`#[derive(Clone, Default)]`, so every field's default is the Rust `Default`
of its type: `false` for the booleans, empty for the string and vector,
`None` for the options. -/
structure InputMessage where
  background : Bool
  clear_draft : Bool
  entities : List MessageEntity
  invert_media : Bool
  link_preview : Bool
  reply_markup : Option ReplyMarkupRaw
  reply_to : Option Int
  schedule_date : Option Int
  silent : Bool
  text : String
  media : Option InputMedia
  media_ttl : Option Int
  mime_type : Option String
deriving DecidableEq

/-- Embedding of `InputMessage::default()` as produced by
`#[derive(Default)]`. -/
def InputMessage.default : InputMessage :=
  { background := false
    clear_draft := false
    entities := []
    invert_media := false
    link_preview := false
    reply_markup := none
    reply_to := none
    schedule_date := none
    silent := false
    text := ""
    media := none
    media_ttl := none
    mime_type := none }

/-- Embedding of the constructor `InputMessage::text`. -/
def InputMessage.text' (s : String) : InputMessage :=
  { InputMessage.default with text := s }

/-- Embedding of the setter `InputMessage::background`. -/
def InputMessage.background' (m : InputMessage) (background : Bool) : InputMessage :=
  { m with background := background }

/-- Embedding of the setter `InputMessage::clear_draft`. -/
def InputMessage.clear_draft' (m : InputMessage) (clear_draft : Bool) : InputMessage :=
  { m with clear_draft := clear_draft }

/-- Embedding of the setter `InputMessage::invert_media`. -/
def InputMessage.invert_media' (m : InputMessage) (invert_media : Bool) : InputMessage :=
  { m with invert_media := invert_media }

/-- Embedding of the setter `InputMessage::link_preview`. -/
def InputMessage.link_preview' (m : InputMessage) (link_preview : Bool) : InputMessage :=
  { m with link_preview := link_preview }

/-- Embedding of the setter `InputMessage::silent`. -/
def InputMessage.silent' (m : InputMessage) (silent : Bool) : InputMessage :=
  { m with silent := silent }

/-- Embedding of `InputMessage::schedule_date`.  The source maps the optional
time through `duration_since(UNIX_EPOCH)`, which fails exactly for times
before the epoch (then `unwrap_or(0)` yields `0`), and otherwise narrows the
`u64` second count with `as i32`. -/
def InputMessage.schedule_date' (m : InputMessage) (schedule_date : Option SystemTime) : InputMessage :=
  { m with
    schedule_date := schedule_date.map fun t =>
      if t.secs < 0 then 0 else i32_of_u64 t.secs.toNat }

/-- Embedding of `InputMessage::schedule_once_online`. -/
def InputMessage.schedule_once_online (m : InputMessage) : InputMessage :=
  { m with schedule_date := some SCHEDULE_ONCE_ONLINE }

/-- Embedding of `InputMessage::media_ttl`. -/
def InputMessage.media_ttl' (m : InputMessage) (seconds : Int) : InputMessage :=
  { m with media_ttl := if seconds < 0 then none else some seconds }

/-- Embedding of `InputMessage::mime_type`. -/
def InputMessage.mime_type' (m : InputMessage) (mime_type : String) : InputMessage :=
  { m with mime_type := some mime_type }

/-- Embedding of `InputMessage::get_file_mime`.  `guess` stands for the
external `mime_guess::from_path(name).first()` lookup, already reduced to the
essence string. -/
def InputMessage.get_file_mime (m : InputMessage) (guess : String → Option String) (file : Uploaded) : String :=
  match m.mime_type with
  | some mime => mime
  | none =>
    match guess file.name with
    | some mime => mime
    | none => "application/octet-stream"

/-- Embedding of `InputMessage::photo`. -/
def InputMessage.photo (m : InputMessage) (file : Uploaded) : InputMessage :=
  { m with
    media := some (InputMedia.UploadedPhoto
      { spoiler := false
        file := file.raw
        stickers := none
        ttl_seconds := m.media_ttl }) }

/-- Embedding of `InputMessage::document`. -/
def InputMessage.document (m : InputMessage) (guess : String → Option String) (file : Uploaded) : InputMessage :=
  { m with
    media := some (InputMedia.UploadedDocument
      { nosound_video := false
        force_file := false
        spoiler := false
        file := file.raw
        thumb := none
        mime_type := m.get_file_mime guess file
        attributes := [DocumentAttribute.Filename file.name]
        stickers := none
        ttl_seconds := m.media_ttl
        video_cover := none
        video_timestamp := none }) }

/-- Embedding of `InputMessage::file`: identical to `document` except that
`force_file` is set. -/
def InputMessage.file (m : InputMessage) (guess : String → Option String) (file : Uploaded) : InputMessage :=
  { m with
    media := some (InputMedia.UploadedDocument
      { nosound_video := false
        force_file := true
        spoiler := false
        file := file.raw
        thumb := none
        mime_type := m.get_file_mime guess file
        attributes := [DocumentAttribute.Filename file.name]
        stickers := none
        ttl_seconds := m.media_ttl
        video_cover := none
        video_timestamp := none }) }

/-- Embedding of `InputMessage::thumbnail`: only touches the draft when the
current media is an uploaded document. -/
def InputMessage.thumbnail (m : InputMessage) (thumb : Uploaded) : InputMessage :=
  match m.media with
  | some (InputMedia.UploadedDocument document) =>
    { m with
      media := some (InputMedia.UploadedDocument
        { document with thumb := some thumb.raw }) }
  | _ => m

/-- Embedding of `InputMessage::attribute` (trailing apostrophe because
`attribute` is a Lean keyword): pushes the attribute onto the uploaded
document's attribute vector, and does nothing for other media. -/
def InputMessage.attribute' (m : InputMessage) (attr : DocumentAttribute) : InputMessage :=
  match m.media with
  | some (InputMedia.UploadedDocument document) =>
    { m with
      media := some (InputMedia.UploadedDocument
        { document with attributes := document.attributes ++ [attr] }) }
  | _ => m

/-- Spec-side predicate: the draft's current media is an uploaded-document
variant. -/
def is_uploaded_document : Option InputMedia → Bool
  | some (InputMedia.UploadedDocument _) => true
  | _ => false

/-!
Theorems settling the claims.
-/

/-- C1: `Group::from_raw` fails fatally (modelled as `none`) exactly when the
input is a `Channel` or `ChannelForbidden` whose broadcast flag is set; every
other input — `Empty`, plain `Chat`, `Forbidden`, and non-broadcast
`Channel`/`ChannelForbidden` — succeeds unconditionally and wraps the variant
unchanged. -/
theorem from_raw_broadcast_spec (chat : Chat) :
    Group.from_raw chat =
      if chat.broadcast_flag then none else some { raw := chat } := by
  cases chat <;> simp [Group.from_raw, Chat.broadcast_flag]

/-- C2 counterexample: a legitimately constructed `Group` wrapping a
non-broadcast `Channel` whose optional `access_hash` field is `None` packs
with an absent access hash, refuting "access_hash is present if and only if
the wrapped variant is Channel or ChannelForbidden". -/
theorem pack_access_hash_counterexample :
    (Group.from_raw (Chat.Channel
        { id := 7, access_hash := none, title := "g",
          broadcast := false, megagroup := true })).map
      (fun g => ((g.pack).access_hash, g.is_megagroup)) = some (none, true) := by
  rfl

/-- C2 amended: for every `Group`, `pack()` returns the variant's `id`, sets
`kind = Megagroup` exactly when `is_megagroup()` holds (`Chat` otherwise),
and carries an access hash exactly when the variant is `ChannelForbidden`,
or `Channel` with its own optional `access_hash` field set. -/
theorem pack_spec (g : Group) :
    (g.pack).id = g.id ∧
    (g.pack).ty =
      (if g.is_megagroup then PackedType.Megagroup else PackedType.Chat) ∧
    (g.pack).access_hash.isSome = g.raw.expects_access_hash := by
  obtain ⟨raw⟩ := g
  cases raw <;>
    simp [Group.pack, Group.id, Group.is_megagroup, Chat.expects_access_hash]

/-- C3 counterexample: a freshly constructed draft has `link_preview = false`,
refuting "link_preview defaults to true" (the struct derives `Default`, so
every boolean field defaults to `false`). -/
theorem link_preview_default_counterexample :
    (InputMessage.text' ("hello")).link_preview = false := by
  rfl

/-- C3 amended: a freshly constructed draft (via `text` or the `Default`
value) has every boolean delivery flag — `background`, `clear_draft`,
`invert_media`, `silent`, and also `link_preview` — equal to `false`. -/
theorem text_default_flags (s : String) :
    (InputMessage.text' s).background = false ∧
    (InputMessage.text' s).clear_draft = false ∧
    (InputMessage.text' s).invert_media = false ∧
    (InputMessage.text' s).silent = false ∧
    (InputMessage.text' s).link_preview = false ∧
    InputMessage.default.background = false ∧
    InputMessage.default.clear_draft = false ∧
    InputMessage.default.invert_media = false ∧
    InputMessage.default.silent = false ∧
    InputMessage.default.link_preview = false := by
  exact ⟨rfl, rfl, rfl, rfl, rfl, rfl, rfl, rfl, rfl, rfl⟩

/-- C4: `is_megagroup()` is true exactly when the wrapped variant is
`Channel` or `ChannelForbidden`, and false for `Empty`, plain `Chat` and
`Forbidden` — exhaustively over all five variants. -/
theorem is_megagroup_iff (g : Group) :
    g.is_megagroup = true ↔
      ((∃ c, g.raw = Chat.Channel c) ∨ ∃ c, g.raw = Chat.ChannelForbidden c) := by
  obtain ⟨raw⟩ := g
  cases raw <;> simp [Group.is_megagroup]

/-- C5: `document(file)` and `file(file)` resolve the media's MIME type by
priority (explicit override, then the guess from the file's name, then
"application/octet-stream"), both put the filename attribute derived from the
upload handle's name first, `file` sets `force_file` and `document` leaves it
false. -/
theorem document_file_mime_spec (guess : String → Option String) (m : InputMessage) (file : Uploaded) :
    (m.get_file_mime guess file =
      match m.mime_type with
      | some mime => mime
      | none => Option.getD (guess file.name) "application/octet-stream") ∧
    (∃ d, (m.document guess file).media = some (InputMedia.UploadedDocument d) ∧
      d.mime_type = m.get_file_mime guess file ∧
      d.attributes.head? = some (DocumentAttribute.Filename file.name) ∧
      d.force_file = false) ∧
    (∃ f, (m.file guess file).media = some (InputMedia.UploadedDocument f) ∧
      f.mime_type = m.get_file_mime guess file ∧
      f.attributes.head? = some (DocumentAttribute.Filename file.name) ∧
      f.force_file = true) := by
  refine ⟨?_, ⟨_, rfl, rfl, rfl, rfl⟩, ⟨_, rfl, rfl, rfl, rfl⟩⟩
  cases hm : m.mime_type <;> cases hg : guess file.name <;>
    simp [InputMessage.get_file_mime, hm, hg]

/-- C6: after attaching a photo, a later `media_ttl(s)` call leaves the
attached photo's `ttl_seconds` exactly as captured at attach time (the
pending `media_ttl` of the draft at that moment). -/
theorem media_ttl_after_photo_noop (m : InputMessage) (file : Uploaded) (seconds : Int) :
    ((m.photo file).media_ttl' seconds).media = (m.photo file).media ∧
    ((m.photo file).media_ttl' seconds).media =
      some (InputMedia.UploadedPhoto
        { spoiler := false, file := file.raw, stickers := none,
          ttl_seconds := m.media_ttl }) := by
  exact ⟨rfl, rfl⟩

/-- C7: `schedule_once_online()` followed by `schedule_date(Some(t))` leaves
the explicit timestamp derived from `t` (not the previously stored sentinel);
in the opposite order the sentinel wins (last setter wins), and
`schedule_date(None)` clears scheduling entirely. -/
theorem schedule_last_write_wins (m : InputMessage) (t : SystemTime) (t2 : SystemTime) :
    ((m.schedule_once_online).schedule_date' (some t)).schedule_date =
      some (if t.secs < 0 then 0 else i32_of_u64 t.secs.toNat) ∧
    ((m.schedule_date' (some t2)).schedule_once_online).schedule_date =
      some SCHEDULE_ONCE_ONLINE ∧
    ((m.schedule_once_online).schedule_date' none).schedule_date = none := by
  exact ⟨rfl, rfl, rfl⟩

/-- C8: when the current media is absent or not an uploaded document,
`thumbnail` and `attribute` leave the draft completely unchanged; when it is
an uploaded document, `attribute` appends to the attribute list, preserving
the prior insertion order. -/
theorem thumbnail_attribute_spec (m : InputMessage) (thumb : Uploaded) (a : DocumentAttribute) :
    (is_uploaded_document m.media = false →
      m.thumbnail thumb = m ∧ m.attribute' a = m) ∧
    (∀ d, m.media = some (InputMedia.UploadedDocument d) →
      ∃ d2, (m.attribute' a).media = some (InputMedia.UploadedDocument d2) ∧
        d2.attributes = d.attributes ++ [a]) := by
  constructor
  · intro h
    rcases hm : m.media with _ | (p | pe | d | de | o)
    · exact ⟨by simp [InputMessage.thumbnail, hm], by simp [InputMessage.attribute', hm]⟩
    · exact ⟨by simp [InputMessage.thumbnail, hm], by simp [InputMessage.attribute', hm]⟩
    · exact ⟨by simp [InputMessage.thumbnail, hm], by simp [InputMessage.attribute', hm]⟩
    · simp [is_uploaded_document, hm] at h
    · exact ⟨by simp [InputMessage.thumbnail, hm], by simp [InputMessage.attribute', hm]⟩
    · exact ⟨by simp [InputMessage.thumbnail, hm], by simp [InputMessage.attribute', hm]⟩
  · intro d hd
    refine ⟨{ d with attributes := d.attributes ++ [a] }, ?_, rfl⟩
    simp [InputMessage.attribute', hd]

/-- Concrete upload handle used by witnesses. -/
def sampleUploaded : Uploaded :=
  { raw := { id := 1, name := "notes.txt" } }

/-- Concrete document attribute used by witnesses. -/
def sampleAttr : DocumentAttribute := DocumentAttribute.Other 0

/-- The uploaded-document record produced by attaching `sampleUploaded` as a
document to a fresh draft, with no MIME override and a guess that knows no
extension. -/
def sampleDoc : InputMediaUploadedDocument :=
  { nosound_video := false, force_file := false, spoiler := false,
    file := sampleUploaded.raw, thumb := none,
    mime_type := "application/octet-stream",
    attributes := [DocumentAttribute.Filename "notes.txt"],
    stickers := none, ttl_seconds := none,
    video_cover := none, video_timestamp := none }

/-- Witness for C8 at concrete inputs: a media-less draft is untouched by
`thumbnail`/`attribute`, and a draft holding an uploaded document gets the
attribute appended after the filename attribute. -/
theorem thumbnail_attribute_spec_witness :
    ((InputMessage.text' ("hi")).thumbnail sampleUploaded = InputMessage.text' ("hi") ∧
      (InputMessage.text' ("hi")).attribute' sampleAttr = InputMessage.text' ("hi")) ∧
    ∃ d2,
      (((InputMessage.text' ("x")).document (fun _ => none) sampleUploaded).attribute'
          sampleAttr).media = some (InputMedia.UploadedDocument d2) ∧
      d2.attributes = sampleDoc.attributes ++ [sampleAttr] :=
  ⟨(thumbnail_attribute_spec (InputMessage.text' ("hi")) sampleUploaded sampleAttr).1 rfl,
   (thumbnail_attribute_spec
      ((InputMessage.text' ("x")).document (fun _ => none) sampleUploaded)
      sampleUploaded sampleAttr).2 sampleDoc rfl⟩

/-- C9: `media_ttl(seconds)` stores `None` for negative `seconds` (clearing
any pending TTL) and `Some seconds` otherwise, and the stored pending value
is what a subsequently attached photo copies into its `ttl_seconds`. -/
theorem media_ttl_negative_clears (m : InputMessage) (seconds : Int) (file : Uploaded) :
    (m.media_ttl' seconds).media_ttl =
      (if seconds < 0 then none else some seconds) ∧
    ((m.media_ttl' seconds).photo file).media =
      some (InputMedia.UploadedPhoto
        { spoiler := false, file := file.raw, stickers := none,
          ttl_seconds := if seconds < 0 then none else some seconds }) := by
  exact ⟨rfl, rfl⟩

/-- C10: `schedule_date(Some(t))` stores `0` for times before the Unix epoch
(`duration_since` fails, `unwrap_or(0)`), and otherwise the seconds-since-
epoch count narrowed to a signed 32-bit value. -/
theorem schedule_date_epoch_clamp (m : InputMessage) (t : SystemTime) :
    (t.secs < 0 → (m.schedule_date' (some t)).schedule_date = some 0) ∧
    (0 ≤ t.secs →
      (m.schedule_date' (some t)).schedule_date = some (i32_of_u64 t.secs.toNat)) := by
  constructor
  · intro h
    simp [InputMessage.schedule_date', h]
  · intro h
    simp [InputMessage.schedule_date', Int.not_lt.mpr h]

/-- Witness for C10 at concrete inputs: five seconds before the epoch stores
`0`; seven seconds after the epoch stores `7`. -/
theorem schedule_date_epoch_clamp_witness :
    ((-5 : Int) < 0 ∧
      (InputMessage.default.schedule_date' (some { secs := -5 })).schedule_date = some 0) ∧
    ((0 : Int) ≤ 7 ∧
      (InputMessage.default.schedule_date' (some { secs := 7 })).schedule_date =
        some (i32_of_u64 (7 : Int).toNat)) :=
  ⟨⟨by decide,
    (schedule_date_epoch_clamp InputMessage.default { secs := -5 }).1 (by decide)⟩,
   ⟨by decide,
    (schedule_date_epoch_clamp InputMessage.default { secs := 7 }).2 (by decide)⟩⟩

end Grammers
